import Mathlib

/-!
Verification development for the "search-in-newtab" Obsidian plugin
(extended variant: leaf lifecycle tracker, redirection engine, and
command / view-state interception layer).

The embedding models the plugin's classes and methods as pure Lean
functions over explicit state:

* A search view's state blob (`any` in the source) is modelled by
  `StateV`: JavaScript `null`, a non-object primitive, or an object
  given as an ordered list of string key/value fields (JS objects have
  unique keys and preserve insertion order; field removal via rest
  destructuring is modelled as filtering the key out, and JSON
  serialization equality is modelled as structural equality, which is
  faithful because the encoding of our value model is injective).
* Host-side data (the workspace, its leaves, their ancestor chains,
  timestamps from `Date.now()`) appears as explicit arguments; every
  event handler takes the current workspace snapshot and clock value.
* Side effects on the host (hiding a leaf, creating a tab, detaching,
  starting and clearing interval timers, invoking the intercepted
  original `setViewState`) are recorded as an emitted list of `HostCall`s
  in the order the corresponding host calls are issued.  A `setTimeout`
  whose callback only re-issues an already-recorded call (the
  double-apply in `applySettingsToNewLeaf`) is not re-recorded; the
  delayed `detach` of the redirection engine is recorded after the
  actions issued before it, preserving issue order.
* The per-leaf location cache (`leafLocationCache`) is cleared in bulk
  on every layout change and the ancestor chain of a leaf can only
  change together with a layout change, so the cache is semantically
  transparent; `isInMainArea` is modelled as the uncached walk.
-/

/-- A JavaScript value as far as this plugin inspects one: `null`
(also standing for `undefined`), a non-object primitive, or an object
with ordered string fields. -/
inductive StateV where
  | vnull : StateV
  | vprim (s : String) : StateV
  | vobj (fields : List (String × String)) : StateV
deriving DecidableEq, Repr

/-- JavaScript truthiness restricted to the values the plugin tests:
`null`/`undefined` and the empty string are falsy, objects are truthy. -/
def StateV.truthy : StateV → Bool
  | .vnull => false
  | .vprim s => s ≠ ""
  | .vobj _ => true

/-- Field lookup on an object value (`state?.k`); `none` models
`undefined`, which is also what non-objects report for a field. -/
def StateV.lookupField : StateV → String → Option String
  | .vobj fields, k => (fields.find? (fun p => p.1 = k)).map (fun p => p.2)
  | _, _ => none

/-- `searchState?.query || ""`. -/
def StateV.queryOf (st : StateV) : String :=
  (st.lookupField "query").getD ""

/-- The fields produced by spreading a value (`{...v}`): an object's
fields; spreading `null`/`undefined` yields no fields.  (Spreading a
primitive would yield index-keyed characters; the plugin only spreads
`lastSearchState`, which is always `null` or an object.) -/
def StateV.spreadFields : StateV → List (String × String)
  | .vobj fields => fields
  | _ => []

/-- JS object-literal update `{...fields, k: v}`: an existing key keeps
its position and gets the new value, a fresh key is appended. -/
def setKey (fields : List (String × String)) (k v : String) : List (String × String) :=
  if fields.any (fun p => p.1 = k) then
    fields.map (fun p => if p.1 = k then (k, v) else p)
  else
    fields ++ [(k, v)]

/-- `sanitizeSearchStateForPersistence` (README.md lines 603-608 /
main.ts lines 115-120): non-objects (and `null`) are returned
unchanged; with `rememberQuery` the object is returned unchanged;
otherwise `const \x7b query, ...rest \x7d = state; return rest` removes the
`query` field. -/
def sanitizeSearchStateForPersistence (rememberQuery : Bool) (state : StateV) : StateV :=
  match state with
  | .vnull => state
  | .vprim _ => state
  | .vobj fields =>
    if rememberQuery then state
    else .vobj (fields.filter (fun p => p.1 ≠ "query"))

/-- `SearchPinnedRememberSettings` of the extended variant
(README.md lines 380-393). -/
structure Settings where
  lastSearchState : StateV
  rememberQuery : Bool
  openBookmarksInMainArea : Bool
  clearSidebarSearchOnStartup : Bool
  debugMode : Bool
  autoPinSearchTab : Bool
deriving DecidableEq, Repr

/-- `DEFAULT_SETTINGS` (README.md lines 395-402). -/
def DEFAULT_SETTINGS : Settings :=
  { lastSearchState := .vnull
    rememberQuery := false
    openBookmarksInMainArea := true
    clearSidebarSearchOnStartup := false
    debugMode := false
    autoPinSearchTab := true }

/-- The JSON record handed back by the host's `loadData()`: each field
may be absent (`none`), in which case `Object.assign` keeps the
default. -/
structure StoredData where
  lastSearchState : Option StateV := none
  rememberQuery : Option Bool := none
  openBookmarksInMainArea : Option Bool := none
  clearSidebarSearchOnStartup : Option Bool := none
  debugMode : Option Bool := none
  autoPinSearchTab : Option Bool := none
deriving DecidableEq, Repr

/-- `loadSettings` (README.md lines 1355-1357):
`Object.assign(\x7b\x7d, DEFAULT_SETTINGS, await this.loadData())` — stored
fields override defaults, absent fields (and an entirely absent stored
record) fall back to the defaults. -/
def loadSettings (stored : Option StoredData) : Settings :=
  match stored with
  | none => DEFAULT_SETTINGS
  | some d =>
    { lastSearchState := d.lastSearchState.getD DEFAULT_SETTINGS.lastSearchState
      rememberQuery := d.rememberQuery.getD DEFAULT_SETTINGS.rememberQuery
      openBookmarksInMainArea := d.openBookmarksInMainArea.getD DEFAULT_SETTINGS.openBookmarksInMainArea
      clearSidebarSearchOnStartup := d.clearSidebarSearchOnStartup.getD DEFAULT_SETTINGS.clearSidebarSearchOnStartup
      debugMode := d.debugMode.getD DEFAULT_SETTINGS.debugMode
      autoPinSearchTab := d.autoPinSearchTab.getD DEFAULT_SETTINGS.autoPinSearchTab }

/-- `saveSettings` (README.md lines 1359-1361): `saveData(this.settings)`
serializes the full in-memory record, so every field is present in
storage. -/
def saveSettings (s : Settings) : StoredData :=
  { lastSearchState := some s.lastSearchState
    rememberQuery := some s.rememberQuery
    openBookmarksInMainArea := some s.openBookmarksInMainArea
    clearSidebarSearchOnStartup := some s.clearSidebarSearchOnStartup
    debugMode := some s.debugMode
    autoPinSearchTab := some s.autoPinSearchTab }

/-- A workspace leaf: identity, current view type, the `state` blob its
`getViewState()` reports, and its ancestor chain (nearest parent
first), each ancestor named by a node id. -/
structure WLeaf where
  id : Nat
  viewType : String
  vstate : StateV
  chain : List Nat
deriving DecidableEq, Repr

/-- A workspace snapshot: the leaves in document order, the node id of
`workspace.rootSplit`, and the active leaf if any. -/
structure Workspace where
  leaves : List WLeaf
  rootSplit : Nat
  activeLeaf : Option Nat := none
deriving DecidableEq, Repr

/-- `workspace.getLeavesOfType(t)` in document order. -/
def getLeavesOfType (ws : Workspace) (t : String) : List WLeaf :=
  ws.leaves.filter (fun l => l.viewType = t)

/-- Resolve a leaf id in a snapshot. -/
def findLeaf (ws : Workspace) (i : Nat) : Option WLeaf :=
  ws.leaves.find? (fun l => l.id = i)

/-- The ancestor walk of `isInMainArea` (README.md lines 1226-1244):
`while (parent && depth < 10)` — examine at most `fuel` ancestors,
returning true as soon as the root split is met. -/
def walkToRoot (root : Nat) : List Nat → Nat → Bool
  | _, 0 => false
  | [], _ => false
  | p :: rest, Nat.succ f => if p = root then true else walkToRoot root rest f

/-- `isInMainArea` (README.md lines 1215-1253) without the
semantically transparent cache: walk the ancestor chain with a depth
bound of 10; reaching the root split means main area, anything else
(chain exhausted or bound exceeded) means peripheral. -/
def isInMainArea (ws : Workspace) (l : WLeaf) : Bool :=
  walkToRoot ws.rootSplit l.chain 10

theorem walkToRoot_eq_mem_take (root : Nat) :
    ∀ (chain : List Nat) (fuel : Nat),
      walkToRoot root chain fuel = true ↔ root ∈ chain.take fuel := by
  intro chain
  induction chain with
  | nil =>
    intro fuel
    cases fuel <;> simp [walkToRoot]
  | cons p rest ih =>
    intro fuel
    cases fuel with
    | zero => simp [walkToRoot]
    | succ f =>
      by_cases hp : p = root
      · subst hp
        simp [walkToRoot]
      · have hne : ¬ root = p := fun h => hp h.symm
        simp [walkToRoot, hp, hne, ih f]

/-- A host-API call issued by the plugin, in issue order. -/
inductive HostCall where
  | applyState (leafId : Nat) : HostCall
  | startMonitor (leafId : Nat) (intervalId : Nat) : HostCall
  | clearTimer (intervalId : Nat) : HostCall
  | redirectEngine (leafId : Nat) : HostCall
  | hide (leafId : Nat) : HostCall
  | createTab (query : String) (st : StateV) : HostCall
  | pinTab : HostCall
  | revealTab : HostCall
  | detach (leafId : Nat) : HostCall
  | origSetViewState (leafId : Nat) : HostCall
  | persist : HostCall
deriving DecidableEq, Repr

/-- The plugin instance's mutable fields (README.md lines 404-419).
Weak sets and weak maps become id-keyed lists; the two monkey-patched
seams are tracked by whether `originalExecuteCommand` is currently
saved and by the list of leaves whose `setViewState` carries the
`__viewStateMonitored` wrapper. -/
structure PluginState where
  settings : Settings
  processedLeaves : List Nat := []
  leafCreationTime : List (Nat × Nat) := []
  leafWatchIntervals : List (Nat × Nat) := []
  leafBaselineState : List (Nat × StateV) := []
  allIntervalIds : List Nat := []
  isInitialLoad : Bool := true
  initCompleteTime : Nat := 0
  lastRedirectionTriggerTime : Nat := 0
  origExecCommandSaved : Bool := false
  viewStateMonitored : List Nat := []
  viewStateMonitoringSetup : Bool := false
  nextIntervalId : Nat := 0
deriving DecidableEq, Repr

/-- Association-list lookup (WeakMap.get). -/
def alookup {α : Type} (k : Nat) (m : List (Nat × α)) : Option α :=
  (m.find? (fun p => p.1 = k)).map (fun p => p.2)

/-- Association-list update (WeakMap.set). -/
def aset {α : Type} (k : Nat) (v : α) (m : List (Nat × α)) : List (Nat × α) :=
  (k, v) :: m.filter (fun p => p.1 ≠ k)

/-- Association-list delete (WeakMap.delete). -/
def adel {α : Type} (k : Nat) (m : List (Nat × α)) : List (Nat × α) :=
  m.filter (fun p => p.1 ≠ k)

/-- WeakSet.add: idempotent insertion. -/
def addOnce (k : Nat) (s : List Nat) : List Nat :=
  if k ∈ s then s else k :: s

/-- `isInInitializationGracePeriod` (README.md lines 539-552): true
while `isInitialLoad` is set or within 2000ms of initialization
completing.  (`Date.now()` is monotone, so the truncated subtraction
agrees with the source's signed one.) -/
def isInGracePeriod (s : PluginState) (now : Nat) : Bool :=
  s.isInitialLoad || decide (now - s.initCompleteTime < 2000)

/-- `shouldPreventDuplicateRedirection` (README.md lines 554-565):
a trigger within 500ms of the last recorded trigger is a duplicate. -/
def shouldPreventDuplicateRedirection (s : PluginState) (now : Nat) : Bool :=
  decide (now - s.lastRedirectionTriggerTime < 500)

/-- The synchronous part of `triggerRedirection` (README.md lines
567-580): drop the trigger when it is a duplicate, otherwise record its
timestamp; the Bool reports whether the redirection pass was
scheduled. -/
def triggerRedirection (s : PluginState) (now : Nat) : PluginState × Bool :=
  if shouldPreventDuplicateRedirection s now then (s, false)
  else ({ s with lastRedirectionTriggerTime := now }, true)

/-- `isSearchCommand` (README.md lines 1016-1030). -/
def isSearchCommand (commandId : String) : Bool :=
  commandId ∈ ["global-search:open", "search-current-file", "search:toggle", "search:open"]

/-- `createSearchTabInMainArea` (README.md lines 1155-1198):
`finalState = searchState || \x7b\x7d`, a non-empty query is written into it,
then a main-area tab is requested, the search view state set, the tab
pinned when auto-pin is on, and revealed. -/
def createSearchTabInMainArea (s : PluginState) (query : String) (searchState : StateV) :
    PluginState × List HostCall :=
  let base : StateV := if searchState.truthy then searchState else .vobj []
  let finalState : StateV :=
    if query ≠ "" then
      match base with
      | .vobj fields => .vobj (setKey fields "query" query)
      | other => other
    else base
  (s, [HostCall.createTab query finalState]
      ++ (if s.settings.autoPinSearchTab then [HostCall.pinTab] else [])
      ++ [HostCall.revealTab])

/-- `redirectSidebarSearchToMainArea` (README.md lines 1111-1152): mark
the leaf processed, hide its container, read its state and query,
request the replacement main-area tab (not awaited), and detach the
original after a 10ms delay. -/
def redirectSidebarSearchToMainArea (s : PluginState) (leaf : WLeaf) :
    PluginState × List HostCall :=
  let s1 := { s with processedLeaves := addOnce leaf.id s.processedLeaves }
  let searchState := leaf.vstate
  let query := searchState.queryOf
  let (s2, createActs) := createSearchTabInMainArea s1 query searchState
  (s2, HostCall.redirectEngine leaf.id :: HostCall.hide leaf.id :: (createActs ++ [HostCall.detach leaf.id]))

/-- `handleSearchCommandExecution` (README.md lines 1033-1067): the
forced redirection pass — if any sidebar search view exists, the first
one is redirected, explicitly ignoring its processed status. -/
def handleSearchCommandExecution (s : PluginState) (ws : Workspace) :
    PluginState × List HostCall :=
  let sidebarSearchViews :=
    (getLeavesOfType ws "search").filter (fun l => ¬ isInMainArea ws l)
  match sidebarSearchViews with
  | [] => (s, [])
  | targetView :: _ => redirectSidebarSearchToMainArea s targetView

/-- `triggerRedirection` including the 10ms-delayed
`handleSearchCommandExecution` it schedules, run on the snapshot. -/
def triggerRedirectionRun (s : PluginState) (ws : Workspace) (now : Nat) :
    PluginState × List HostCall :=
  let (s1, go) := triggerRedirection s now
  if go then handleSearchCommandExecution s1 ws else (s1, [])

/-- `applySettingsToNewLeaf` (README.md lines 742-769): merge the
remembered state over the leaf's current one (blanking or preserving
the query per `rememberQuery`), write it back, and record the sanitized
baseline.  The 100ms double-apply re-issues the identical write and is
not re-recorded. -/
def applySettingsToNewLeaf (s : PluginState) (leaf : WLeaf) :
    PluginState × List HostCall :=
  let current := leaf.vstate
  let desiredState : StateV :=
    if s.settings.rememberQuery then .vobj s.settings.lastSearchState.spreadFields
    else .vobj (setKey s.settings.lastSearchState.spreadFields "query" current.queryOf)
  let baseline := sanitizeSearchStateForPersistence s.settings.rememberQuery desiredState
  ({ s with leafBaselineState := aset leaf.id baseline s.leafBaselineState },
   [HostCall.applyState leaf.id])

/-- `startIntelligentMonitoring` (README.md lines 774-819): start one
800ms polling timer per leaf, remembering its id. -/
def startIntelligentMonitoring (s : PluginState) (leaf : WLeaf) :
    PluginState × List HostCall :=
  if (alookup leaf.id s.leafWatchIntervals).isSome then (s, [])
  else
    let intervalId := s.nextIntervalId
    ({ s with
        leafWatchIntervals := aset leaf.id intervalId s.leafWatchIntervals
        allIntervalIds := s.allIntervalIds ++ [intervalId]
        nextIntervalId := intervalId + 1 },
     [HostCall.startMonitor leaf.id intervalId])

/-- The tail of `processNewSearchLeaf`: apply the saved settings when a
truthy `lastSearchState` exists, then start monitoring. -/
def applyAndMonitor (s : PluginState) (leaf : WLeaf) : PluginState × List HostCall :=
  let (s1, a1) :=
    if s.settings.lastSearchState.truthy then applySettingsToNewLeaf s leaf else (s, [])
  let (s2, a2) := startIntelligentMonitoring s1 leaf
  (s2, a1 ++ a2)

/-- `processNewSearchLeaf` (README.md lines 684-719): mark processed
and record the creation time immediately; during the grace period skip
redirection and continue with apply/monitor; otherwise a peripheral
leaf under enabled redirection is handed to the trigger and processing
returns early; all other leaves get apply/monitor. -/
def processNewSearchLeaf (s : PluginState) (ws : Workspace) (now : Nat) (leaf : WLeaf) :
    PluginState × List HostCall :=
  let s1 := { s with
      processedLeaves := addOnce leaf.id s.processedLeaves
      leafCreationTime := aset leaf.id now s.leafCreationTime }
  if isInGracePeriod s1 now then
    applyAndMonitor s1 leaf
  else if s1.settings.openBookmarksInMainArea && ¬ isInMainArea ws leaf then
    triggerRedirectionRun s1 ws now
  else
    applyAndMonitor s1 leaf

/-- `handleExistingSearchLeafActivation` (README.md lines 722-740). -/
def handleExistingSearchLeafActivation (s : PluginState) (ws : Workspace) (now : Nat)
    (leaf : WLeaf) : PluginState × List HostCall :=
  if isInGracePeriod s now then (s, [])
  else if s.settings.openBookmarksInMainArea && ¬ isInMainArea ws leaf then
    triggerRedirectionRun s ws now
  else (s, [])

/-- `handleActiveLeafChanges` (README.md lines 668-682). -/
def handleActiveLeafChanges (s : PluginState) (ws : Workspace) (now : Nat) :
    PluginState × List HostCall :=
  match ws.activeLeaf.bind (findLeaf ws) with
  | none => (s, [])
  | some activeLeaf =>
    if activeLeaf.viewType ≠ "search" || ¬ s.settings.openBookmarksInMainArea then (s, [])
    else if ¬ isInMainArea ws activeLeaf && activeLeaf.id ∈ s.processedLeaves then
      handleExistingSearchLeafActivation s ws now activeLeaf
    else (s, [])

/-- The `for (const leaf of leaves)` loop of `handleLayoutChanges`:
process each not-yet-processed search leaf, threading the state. -/
def processLoop (ws : Workspace) (now : Nat) :
    PluginState → List WLeaf → PluginState × List HostCall
  | s, [] => (s, [])
  | s, l :: ls =>
    if l.id ∈ s.processedLeaves then processLoop ws now s ls
    else
      let (s1, a1) := processNewSearchLeaf s ws now l
      let (s2, a2) := processLoop ws now s1 ls
      (s2, a1 ++ a2)

/-- `handleLayoutChanges` (README.md lines 643-665): clear the location
cache (transparent here), bail out when redirection is disabled, then
process the new search leaves. -/
def handleLayoutChanges (s : PluginState) (ws : Workspace) (now : Nat) :
    PluginState × List HostCall :=
  if ¬ s.settings.openBookmarksInMainArea then (s, [])
  else processLoop ws now s (getLeavesOfType ws "search")

/-- `cleanupLeafTracking` (README.md lines 822-835): clear and forget
the leaf's timer (removing its id from `allIntervalIds`), creation time
and baseline; the processed mark stays. -/
def cleanupLeafTracking (s : PluginState) (leafId : Nat) : PluginState × List HostCall :=
  match alookup leafId s.leafWatchIntervals with
  | some intervalId =>
    ({ s with
        leafWatchIntervals := adel leafId s.leafWatchIntervals
        allIntervalIds := s.allIntervalIds.erase intervalId
        leafCreationTime := adel leafId s.leafCreationTime
        leafBaselineState := adel leafId s.leafBaselineState },
     [HostCall.clearTimer intervalId])
  | none =>
    ({ s with
        leafCreationTime := adel leafId s.leafCreationTime
        leafBaselineState := adel leafId s.leafBaselineState },
     [])

/-- One tick of the `monitor` closure of `startIntelligentMonitoring`
(README.md lines 777-812): self-terminate when the leaf stops being a
search view, skip within the 2s immunity window, and persist only when
the sanitized current state differs from an existing baseline. -/
def monitorTick (s : PluginState) (ws : Workspace) (now : Nat) (leafId : Nat) :
    PluginState × List HostCall :=
  match findLeaf ws leafId with
  | none => cleanupLeafTracking s leafId
  | some l =>
    if l.viewType ≠ "search" then cleanupLeafTracking s leafId
    else if now - (alookup leafId s.leafCreationTime).getD 0 < 2000 then (s, [])
    else if l.vstate.truthy then
      match alookup leafId s.leafBaselineState with
      | some baseline =>
        if sanitizeSearchStateForPersistence s.settings.rememberQuery l.vstate ≠ baseline then
          ({ s with
              settings := { s.settings with
                lastSearchState := sanitizeSearchStateForPersistence s.settings.rememberQuery l.vstate }
              leafBaselineState :=
                aset leafId (sanitizeSearchStateForPersistence s.settings.rememberQuery l.vstate)
                  s.leafBaselineState },
           [HostCall.persist])
        else (s, [])
      | none => (s, [])
    else (s, [])

/-- `getAnySearchState` (README.md lines 584-600): prefer the active
leaf when it is itself a search view, else the first search leaf;
return its reported `state` (`vs?.state ?? null`). -/
def getAnySearchState (ws : Workspace) : StateV :=
  match getLeavesOfType ws "search" with
  | [] => .vnull
  | first :: _ =>
    let chosen :=
      match ws.activeLeaf.bind (findLeaf ws) with
      | some activeLeaf => if activeLeaf.viewType = "search" then activeLeaf else first
      | none => first
    chosen.vstate

/-- The callback of the "save-current-search-state" command
(README.md lines 451-464): when a search state is found, sanitize and
persist it. -/
def saveCurrentSearchState (s : PluginState) (ws : Workspace) : PluginState × List HostCall :=
  let st := getAnySearchState ws
  if st.truthy then
    ({ s with settings := { s.settings with
        lastSearchState := sanitizeSearchStateForPersistence s.settings.rememberQuery st } },
     [HostCall.persist])
  else (s, [])

/-- The wrapped `executeCommand` installed by `setupCommandInterception`
(README.md lines 838-905), as it behaves once installed: the original
command runs first (its host effects are reflected in the snapshot
`ws`); for a search command the processed marks of all current sidebar
search leaves are cleared and `handleSearchCommandExecution` runs after
a 0ms delay.  Neither the grace period nor the duplicate-prevention
window is consulted on this path. -/
def executeCommandWrapped (s : PluginState) (ws : Workspace) (commandId : String) :
    PluginState × List HostCall :=
  if isSearchCommand commandId then
    let sidebarIds :=
      ((getLeavesOfType ws "search").filter (fun l => ¬ isInMainArea ws l)).map (fun l => l.id)
    let s1 := { s with processedLeaves := s.processedLeaves.filter (fun i => i ∉ sidebarIds) }
    handleSearchCommandExecution s1 ws
  else (s, [])

/-- The wrapped `setViewState` installed by `monitorLeafViewState`
(README.md lines 936-978) on a leaf carrying the wrapper: a request to
set a search view on a sidebar leaf outside the grace period with
redirection enabled is short-circuited into
`createSearchTabInMainArea`; every other request falls through to the
original setter. -/
def setViewStateWrapped (s : PluginState) (ws : Workspace) (now : Nat) (leaf : WLeaf)
    (vsType : String) (vsState : StateV) : PluginState × List HostCall :=
  if vsType = "search" && ¬ isInMainArea ws leaf && ¬ isInGracePeriod s now then
    if s.settings.openBookmarksInMainArea then
      let searchState := vsState
      let query := searchState.queryOf
      createSearchTabInMainArea s query searchState
    else
      (s, [HostCall.origSetViewState leaf.id])
  else
    (s, [HostCall.origSetViewState leaf.id])

/-- `setupViewStateMonitoring` (README.md lines 908-933): wrap
`setViewState` on every current sidebar leaf and remember that the
layout-change hook keeps wrapping newly appearing sidebar leaves. -/
def setupViewStateMonitoring (s : PluginState) (ws : Workspace) : PluginState :=
  { s with
      viewStateMonitored :=
        s.viewStateMonitored ++
          ((ws.leaves.filter (fun l => ¬ isInMainArea ws l)).map (fun l => l.id)).filter
            (fun i => i ∉ s.viewStateMonitored)
      viewStateMonitoringSetup := true }

/-- The monitoring half of the layout-change hook registered by
`setupViewStateMonitoring`: wrap any sidebar leaf not yet wrapped. -/
def monitorNewSidebarLeaves (s : PluginState) (ws : Workspace) : PluginState :=
  if s.viewStateMonitoringSetup then setupViewStateMonitoring s ws else s

/-- `setupCommandInterception` (README.md lines 838-905), state part:
save the original `executeCommand` and install the wrapper (the
commands API is assumed present). -/
def setupCommandInterception (s : PluginState) : PluginState :=
  { s with origExecCommandSaved := true }

/-- `onload` (README.md lines 437-511): load settings, run the initial
`handleLayoutChanges` while `isInitialLoad` is still true, install the
two interception seams when redirection is enabled, then mark the
initial load complete and stamp the time. -/
def onload (stored : Option StoredData) (ws : Workspace) (now : Nat) :
    PluginState × List HostCall :=
  let s0 : PluginState := { settings := loadSettings stored }
  let (s1, a1) := handleLayoutChanges s0 ws now
  let s2 := if s1.settings.openBookmarksInMainArea then setupViewStateMonitoring s1 ws else s1
  let s3 := if s2.settings.openBookmarksInMainArea then setupCommandInterception s2 else s2
  ({ s3 with isInitialLoad := false, initCompleteTime := now }, a1)

/-- `onunload` (README.md lines 513-537): clear every interval in
`allIntervalIds`, reset the weak tables, and restore the original
`executeCommand`; nothing uninstalls the per-leaf `setViewState`
wrappers, so `viewStateMonitored` is untouched. -/
def onunload (s : PluginState) : PluginState × List HostCall :=
  ({ s with
      allIntervalIds := []
      processedLeaves := []
      leafCreationTime := []
      leafWatchIntervals := []
      leafBaselineState := []
      origExecCommandSaved := false },
   s.allIntervalIds.map HostCall.clearTimer)

/-- A host-driven occurrence the plugin reacts to; each carries the
workspace snapshot at that moment and the value of `Date.now()`. -/
inductive Event where
  | layoutChange (ws : Workspace) (now : Nat) : Event
  | activeLeafChange (ws : Workspace) (now : Nat) : Event
  | commandExec (commandId : String) (ws : Workspace) (now : Nat) : Event
  | monitorFire (leafId : Nat) (ws : Workspace) (now : Nat) : Event
  | saveStateCommand (ws : Workspace) (now : Nat) : Event
deriving Repr

/-- One event dispatch.  A layout change first runs
`handleLayoutChanges` and then the wrapper-installing hook (they were
registered in that order); a monitor timer can only fire for a leaf
that still owns a watch interval; `commandExec` goes through the
wrapped `executeCommand` only while the wrapper is installed. -/
def step (s : PluginState) : Event → PluginState × List HostCall
  | .layoutChange ws now =>
    let (s1, a1) := handleLayoutChanges s ws now
    (monitorNewSidebarLeaves s1 ws, a1)
  | .activeLeafChange ws now => handleActiveLeafChanges s ws now
  | .commandExec commandId ws now =>
    let _ := now
    if s.origExecCommandSaved then executeCommandWrapped s ws commandId else (s, [])
  | .monitorFire leafId ws now =>
    if (alookup leafId s.leafWatchIntervals).isSome then monitorTick s ws now leafId
    else (s, [])
  | .saveStateCommand ws _ => saveCurrentSearchState s ws

/-- Run a sequence of events, accumulating the issued host calls. -/
def run (s : PluginState) : List Event → PluginState × List HostCall
  | [] => (s, [])
  | e :: es =>
    let (s1, a1) := step s e
    let (s2, a2) := run s1 es
    (s2, a1 ++ a2)

theorem find?_filter_of_imp {α : Type} (l : List α) (p q : α → Bool)
    (h : ∀ a, p a = true → q a = true) : (l.filter q).find? p = l.find? p := by
  induction l with
  | nil => simp
  | cons a l ih =>
    cases hq : q a with
    | true =>
      cases hp : p a with
      | true => simp [List.filter_cons, hq, List.find?_cons_of_pos, hp]
      | false =>
        rw [List.filter_cons, if_pos (by simp [hq]), List.find?_cons_of_neg _ (by simp [hp]),
          List.find?_cons_of_neg _ (by simp [hp]), ih]
    | false =>
      have hp : p a = false := by
        cases hpa : p a with
        | false => rfl
        | true => rw [h a hpa] at hq; cases hq
      rw [List.filter_cons, if_neg (by simp [hq]), ih, List.find?_cons_of_neg _ (by simp [hp])]

/-- Claim C5: with `rememberQuery = true` the sanitizer is the
identity; with `rememberQuery = false` it removes exactly the `query`
field — the result has no `query` field, every other field keeps its
value, and on an object it is literally the field list with the
`query` entry filtered out. -/
theorem sanitizeSearchStateForPersistence_spec (S : StateV) :
    sanitizeSearchStateForPersistence true S = S ∧
    (sanitizeSearchStateForPersistence false S).lookupField "query" = none ∧
    (∀ k : String, k ≠ "query" →
      (sanitizeSearchStateForPersistence false S).lookupField k = S.lookupField k) ∧
    (∀ fields : List (String × String), S = .vobj fields →
      sanitizeSearchStateForPersistence false S =
        .vobj (fields.filter (fun p => p.1 ≠ "query"))) := by
  refine ⟨?_, ?_, ?_, ?_⟩
  · cases S <;> simp [sanitizeSearchStateForPersistence]
  · cases S with
    | vnull => simp [sanitizeSearchStateForPersistence, StateV.lookupField]
    | vprim s => simp [sanitizeSearchStateForPersistence, StateV.lookupField]
    | vobj fields =>
      have hred : sanitizeSearchStateForPersistence false (.vobj fields) =
          .vobj (fields.filter (fun p => p.1 ≠ "query")) := rfl
      rw [hred]
      simp only [StateV.lookupField]
      rw [List.find?_eq_none.mpr]
      · rfl
      · intro x hx
        have := List.of_mem_filter hx
        simpa using this
  · intro k hk
    cases S with
    | vnull => rfl
    | vprim s => rfl
    | vobj fields =>
      have hred : sanitizeSearchStateForPersistence false (.vobj fields) =
          .vobj (fields.filter (fun p => p.1 ≠ "query")) := rfl
      rw [hred]
      simp only [StateV.lookupField]
      rw [find?_filter_of_imp]
      intro a ha
      have : a.1 = k := by simpa using ha
      simp [this, hk]
  · intro fields hS
    subst hS
    rfl

/-- Witness for C5 at a concrete state with a `query` field. -/
theorem sanitizeSearchStateForPersistence_spec_witness :
    (sanitizeSearchStateForPersistence false
        (.vobj [("query", "foo"), ("sort", "alpha")])).lookupField "sort" =
      (StateV.vobj [("query", "foo"), ("sort", "alpha")]).lookupField "sort" ∧
    sanitizeSearchStateForPersistence false (.vobj [("query", "foo"), ("sort", "alpha")]) =
      .vobj [("sort", "alpha")] := by
  refine ⟨(sanitizeSearchStateForPersistence_spec _).2.2.1 "sort" (by decide), ?_⟩
  have h := (sanitizeSearchStateForPersistence_spec
      (.vobj [("query", "foo"), ("sort", "alpha")])).2.2.2
      [("query", "foo"), ("sort", "alpha")] rfl
  rw [h]
  decide

/-- Claim C9: removing the `query` field with `rememberQuery = false`
is idempotent. -/
theorem sanitizeSearchStateForPersistence_idem (S : StateV) :
    sanitizeSearchStateForPersistence false (sanitizeSearchStateForPersistence false S) =
      sanitizeSearchStateForPersistence false S := by
  cases S with
  | vnull => rfl
  | vprim s => rfl
  | vobj fields =>
    simp [sanitizeSearchStateForPersistence, List.filter_filter]

/-- Claim C6: the location classifier's ancestor walk is a total
function that inspects at most the first 10 ancestors: it reports the
main area exactly when the workspace root split occurs among them, and
its verdict depends on nothing beyond that prefix (so a chain whose
root lies deeper than the bound is classified peripheral). -/
theorem isInMainArea_spec :
    (∀ (ws : Workspace) (l : WLeaf),
        isInMainArea ws l = true ↔ ws.rootSplit ∈ l.chain.take 10) ∧
    (∀ (root : Nat) (c₁ c₂ : List Nat), c₁.take 10 = c₂.take 10 →
        walkToRoot root c₁ 10 = walkToRoot root c₂ 10) := by
  constructor
  · intro ws l
    exact walkToRoot_eq_mem_take ws.rootSplit l.chain 10
  · intro root c₁ c₂ htake
    have h1 := walkToRoot_eq_mem_take root c₁ 10
    have h2 := walkToRoot_eq_mem_take root c₂ 10
    rw [htake] at h1
    cases hb : walkToRoot root c₂ 10 with
    | true => exact h1.mpr (h2.mp hb)
    | false =>
      cases hb1 : walkToRoot root c₁ 10 with
      | true => rw [h2.mpr (h1.mp hb1)] at hb; exact hb
      | false => rfl

/-- Witness for C6: an 11-deep chain whose root split sits just past
the bound is classified peripheral, a 2-deep one is main area. -/
theorem isInMainArea_spec_witness :
    (isInMainArea { leaves := [], rootSplit := 50 }
        { id := 1, viewType := "search", vstate := .vnull,
          chain := [0, 1, 2, 3, 4, 5, 6, 7, 8, 9, 50] } = true ↔
      (50 : Nat) ∈ [0, 1, 2, 3, 4, 5, 6, 7, 8, 9, 50].take 10) ∧
    walkToRoot 50 [0, 1, 2, 3, 4, 5, 6, 7, 8, 9, 50] 10 =
      walkToRoot 50 [0, 1, 2, 3, 4, 5, 6, 7, 8, 9, 77] 10 := by
  exact ⟨isInMainArea_spec.1 _ _, isInMainArea_spec.2 50 _ _ (by decide)⟩

/-- Claim C7: every run of the redirection engine issues the request
that creates the replacement main-area tab (carrying the original
leaf's preserved query and state) strictly before it detaches the
original peripheral leaf. -/
theorem redirectSidebarSearchToMainArea_create_before_detach (s : PluginState) (leaf : WLeaf) :
    ∃ (i j : Nat) (st : StateV), i < j ∧
      (redirectSidebarSearchToMainArea s leaf).2.get? i =
        some (HostCall.createTab leaf.vstate.queryOf st) ∧
      (redirectSidebarSearchToMainArea s leaf).2.get? j = some (HostCall.detach leaf.id) := by
  cases hpin : s.settings.autoPinSearchTab with
  | true =>
    simp only [redirectSidebarSearchToMainArea, createSearchTabInMainArea, hpin, if_true]
    exact ⟨2, 5, _, by omega, rfl, rfl⟩
  | false =>
    simp only [redirectSidebarSearchToMainArea, createSearchTabInMainArea, hpin,
      Bool.false_eq_true, if_false]
    exact ⟨2, 4, _, by omega, rfl, rfl⟩

/-- Claim C8: a settings record saved with `saveSettings` and loaded by
a fresh instance's `loadSettings` comes back identical, and every field
absent from storage falls back to its default. -/
theorem loadSettings_saveSettings_round_trip :
    (∀ s : Settings, loadSettings (some (saveSettings s)) = s) ∧
    loadSettings none = DEFAULT_SETTINGS ∧
    (∀ d : StoredData,
      (d.lastSearchState = none →
        (loadSettings (some d)).lastSearchState = DEFAULT_SETTINGS.lastSearchState) ∧
      (d.rememberQuery = none →
        (loadSettings (some d)).rememberQuery = DEFAULT_SETTINGS.rememberQuery) ∧
      (d.openBookmarksInMainArea = none →
        (loadSettings (some d)).openBookmarksInMainArea = DEFAULT_SETTINGS.openBookmarksInMainArea) ∧
      (d.clearSidebarSearchOnStartup = none →
        (loadSettings (some d)).clearSidebarSearchOnStartup = DEFAULT_SETTINGS.clearSidebarSearchOnStartup) ∧
      (d.debugMode = none →
        (loadSettings (some d)).debugMode = DEFAULT_SETTINGS.debugMode) ∧
      (d.autoPinSearchTab = none →
        (loadSettings (some d)).autoPinSearchTab = DEFAULT_SETTINGS.autoPinSearchTab)) := by
  refine ⟨fun s => by cases s; rfl, rfl, fun d => ?_⟩
  refine ⟨?_, ?_, ?_, ?_, ?_, ?_⟩ <;> intro h <;> simp [loadSettings, h]

/-- Witness for C8: a full round trip of a non-default record, and the
fallback of an entirely empty stored record. -/
theorem loadSettings_saveSettings_round_trip_witness :
    loadSettings (some (saveSettings
        { lastSearchState := .vobj [("sort", "alpha")]
          rememberQuery := true
          openBookmarksInMainArea := false
          clearSidebarSearchOnStartup := true
          debugMode := true
          autoPinSearchTab := false })) =
      { lastSearchState := .vobj [("sort", "alpha")]
        rememberQuery := true
        openBookmarksInMainArea := false
        clearSidebarSearchOnStartup := true
        debugMode := true
        autoPinSearchTab := false } ∧
    (loadSettings (some {})).rememberQuery = DEFAULT_SETTINGS.rememberQuery := by
  exact ⟨loadSettings_saveSettings_round_trip.1 _,
    ((loadSettings_saveSettings_round_trip.2.2 {}).2.1 rfl)⟩

/-- Claim C4 (amended): `onunload` clears exactly the tracked interval
timers and restores the wrapped command dispatch, but the per-leaf
view-state wrappers stay installed. -/
theorem onunload_cleanup (s : PluginState) :
    (onunload s).1.allIntervalIds = [] ∧
    (onunload s).2 = s.allIntervalIds.map HostCall.clearTimer ∧
    (onunload s).1.origExecCommandSaved = false ∧
    (onunload s).1.viewStateMonitored = s.viewStateMonitored := by
  exact ⟨rfl, rfl, rfl, rfl⟩

/-- A plugin instance that wrapped one sidebar leaf's `setViewState`
(leaf 7) and has one live polling timer. -/
def unloadDemoState : PluginState :=
  { settings := DEFAULT_SETTINGS
    allIntervalIds := [3]
    isInitialLoad := false
    origExecCommandSaved := true
    viewStateMonitored := [7]
    viewStateMonitoringSetup := true }

/-- Counterexample to claim C4 as stated: after `onunload` the timers
are cleared and `executeCommand` is restored, yet leaf 7's wrapped
`setViewState` is still installed — not every wrapped host function is
restored. -/
theorem onunload_leaves_view_state_wrapper :
    (onunload unloadDemoState).1.allIntervalIds = [] ∧
    (onunload unloadDemoState).1.origExecCommandSaved = false ∧
    (onunload unloadDemoState).1.viewStateMonitored = [7] ∧
    (onunload unloadDemoState).1.viewStateMonitored ≠ [] := by
  exact ⟨rfl, rfl, rfl, by decide⟩

/-- A peripheral (sidebar) search leaf: its ancestor chain misses the
root split (node 50). -/
def leafOne : WLeaf :=
  { id := 1, viewType := "search", vstate := .vobj [("query", "foo")], chain := [100] }

/-- A workspace holding only the peripheral search leaf `leafOne`. -/
def sidebarSearchWs : Workspace :=
  { leaves := [leafOne]
    rootSplit := 50 }

/-- A plugin instance past its initial load in which leaf 1 is already
marked processed. -/
def processedLeafState : PluginState :=
  { settings := DEFAULT_SETTINGS
    processedLeaves := [1]
    isInitialLoad := false
    initCompleteTime := 0
    origExecCommandSaved := true }

/-- Counterexample to claim C1 as stated: the redirection pass hands
leaf 1 to the redirection engine even though leaf 1 is already marked
processed. -/
theorem processed_leaf_redirected_again :
    1 ∈ processedLeafState.processedLeaves ∧
    HostCall.redirectEngine 1 ∈ (handleSearchCommandExecution processedLeafState sidebarSearchWs).2 := by
  decide

/-- A plugin instance 500ms after its initialization completed, i.e.
inside the 2-second startup grace window, with interception installed. -/
def graceWindowState : PluginState :=
  { settings := DEFAULT_SETTINGS
    isInitialLoad := false
    initCompleteTime := 10000
    origExecCommandSaved := true }

/-- Counterexample to claim C2 as stated: at time 10500, well inside
the grace window, a search command dispatched through the intercepted
`executeCommand` still redirects the peripheral search leaf 1. -/
theorem redirected_during_grace_window :
    isInGracePeriod graceWindowState 10500 = true ∧
    HostCall.redirectEngine 1 ∈
      (step graceWindowState (Event.commandExec "global-search:open" sidebarSearchWs 10500)).2 := by
  decide

/-- Counterexample to claim C3 as stated: two search-command triggers
100ms apart both reach the redirection engine, because the command
interception path never consults the duplicate-prevention window. -/
theorem duplicate_triggers_both_redirect :
    (10100 : Nat) - 10000 < 500 ∧
    HostCall.redirectEngine 1 ∈
      (step processedLeafState (Event.commandExec "global-search:open" sidebarSearchWs 10000)).2 ∧
    HostCall.redirectEngine 1 ∈
      (step (step processedLeafState (Event.commandExec "global-search:open" sidebarSearchWs 10000)).1
        (Event.commandExec "global-search:open" sidebarSearchWs 10100)).2 := by
  decide

theorem mem_addOnce_of_mem {p k : Nat} {s : List Nat} (h : p ∈ s) : p ∈ addOnce k s := by
  unfold addOnce
  split
  · exact h
  · exact List.mem_cons_of_mem _ h

theorem applyAndMonitor_actions {s : PluginState} {leaf : WLeaf} {a : HostCall}
    (h : a ∈ (applyAndMonitor s leaf).2) :
    a = HostCall.applyState leaf.id ∨ ∃ iid, a = HostCall.startMonitor leaf.id iid := by
  by_cases ht : s.settings.lastSearchState.truthy
  · by_cases hw : (alookup leaf.id s.leafWatchIntervals).isSome
    · simp [applyAndMonitor, applySettingsToNewLeaf, startIntelligentMonitoring, ht, hw] at h
      exact Or.inl h
    · simp [applyAndMonitor, applySettingsToNewLeaf, startIntelligentMonitoring, ht, hw] at h
      rcases h with h | h
      · exact Or.inl h
      · exact Or.inr ⟨_, h⟩
  · by_cases hw : (alookup leaf.id s.leafWatchIntervals).isSome
    · simp [applyAndMonitor, applySettingsToNewLeaf, startIntelligentMonitoring, ht, hw] at h
    · simp [applyAndMonitor, applySettingsToNewLeaf, startIntelligentMonitoring, ht, hw] at h
      exact Or.inr ⟨_, h⟩

theorem applyAndMonitor_processed (s : PluginState) (leaf : WLeaf) :
    (applyAndMonitor s leaf).1.processedLeaves = s.processedLeaves := by
  by_cases ht : s.settings.lastSearchState.truthy
  · by_cases hw : (alookup leaf.id s.leafWatchIntervals).isSome
    · simp [applyAndMonitor, applySettingsToNewLeaf, startIntelligentMonitoring, ht, hw]
    · simp [applyAndMonitor, applySettingsToNewLeaf, startIntelligentMonitoring, ht, hw]
  · by_cases hw : (alookup leaf.id s.leafWatchIntervals).isSome
    · simp [applyAndMonitor, applySettingsToNewLeaf, startIntelligentMonitoring, ht, hw]
    · simp [applyAndMonitor, applySettingsToNewLeaf, startIntelligentMonitoring, ht, hw]

theorem applyState_not_mem_redirect (s : PluginState) (leaf : WLeaf) (x : Nat) :
    HostCall.applyState x ∉ (redirectSidebarSearchToMainArea s leaf).2 := by
  cases hpin : s.settings.autoPinSearchTab with
  | true => simp [redirectSidebarSearchToMainArea, createSearchTabInMainArea, hpin]
  | false => simp [redirectSidebarSearchToMainArea, createSearchTabInMainArea, hpin]

theorem redirect_processed {p : Nat} {s : PluginState} (leaf : WLeaf) (h : p ∈ s.processedLeaves) :
    p ∈ (redirectSidebarSearchToMainArea s leaf).1.processedLeaves := by
  cases hpin : s.settings.autoPinSearchTab with
  | true =>
    simp only [redirectSidebarSearchToMainArea, createSearchTabInMainArea, hpin]
    exact mem_addOnce_of_mem h
  | false =>
    simp only [redirectSidebarSearchToMainArea, createSearchTabInMainArea, hpin]
    exact mem_addOnce_of_mem h

theorem applyState_not_mem_hsce (s : PluginState) (ws : Workspace) (x : Nat) :
    HostCall.applyState x ∉ (handleSearchCommandExecution s ws).2 := by
  unfold handleSearchCommandExecution
  cases hl : (getLeavesOfType ws "search").filter (fun l => ¬ isInMainArea ws l) with
  | nil => simp
  | cons t rest => simpa using applyState_not_mem_redirect s t x

theorem hsce_processed {p : Nat} {s : PluginState} (ws : Workspace) (h : p ∈ s.processedLeaves) :
    p ∈ (handleSearchCommandExecution s ws).1.processedLeaves := by
  unfold handleSearchCommandExecution
  cases hl : (getLeavesOfType ws "search").filter (fun l => ¬ isInMainArea ws l) with
  | nil => simpa using h
  | cons t rest => simpa using redirect_processed t h

theorem applyState_not_mem_trr (s : PluginState) (ws : Workspace) (now : Nat) (x : Nat) :
    HostCall.applyState x ∉ (triggerRedirectionRun s ws now).2 := by
  by_cases hd : shouldPreventDuplicateRedirection s now
  · simp [triggerRedirectionRun, triggerRedirection, hd]
  · simp only [triggerRedirectionRun, triggerRedirection, hd]
    simpa using applyState_not_mem_hsce { s with lastRedirectionTriggerTime := now } ws x

theorem trr_processed {p : Nat} {s : PluginState} (ws : Workspace) (now : Nat)
    (h : p ∈ s.processedLeaves) :
    p ∈ (triggerRedirectionRun s ws now).1.processedLeaves := by
  by_cases hd : shouldPreventDuplicateRedirection s now
  · simpa [triggerRedirectionRun, triggerRedirection, hd] using h
  · simp only [triggerRedirectionRun, triggerRedirection, hd]
    simpa using hsce_processed (s := { s with lastRedirectionTriggerTime := now }) ws h

theorem applyState_mem_processNewSearchLeaf {s : PluginState} {ws : Workspace} {now : Nat}
    {leaf : WLeaf} {x : Nat}
    (h : HostCall.applyState x ∈ (processNewSearchLeaf s ws now leaf).2) : x = leaf.id := by
  unfold processNewSearchLeaf at h
  simp only [] at h
  split at h
  · rcases applyAndMonitor_actions h with h1 | ⟨iid, h1⟩
    · exact (HostCall.applyState.injEq x leaf.id).mp h1
    · exact absurd h1 (by simp)
  · split at h
    · exact absurd h (applyState_not_mem_trr _ ws now x)
    · rcases applyAndMonitor_actions h with h1 | ⟨iid, h1⟩
      · exact (HostCall.applyState.injEq x leaf.id).mp h1
      · exact absurd h1 (by simp)

theorem processNewSearchLeaf_processed {p : Nat} {s : PluginState} (ws : Workspace) (now : Nat)
    (leaf : WLeaf) (h : p ∈ s.processedLeaves) :
    p ∈ (processNewSearchLeaf s ws now leaf).1.processedLeaves := by
  unfold processNewSearchLeaf
  simp only []
  split
  · rw [applyAndMonitor_processed]
    exact mem_addOnce_of_mem h
  · split
    · exact trr_processed ws now (mem_addOnce_of_mem h)
    · rw [applyAndMonitor_processed]
      exact mem_addOnce_of_mem h

theorem processLoop_no_applyState (ws : Workspace) (now : Nat) :
    ∀ (ls : List WLeaf) (s : PluginState) (p : Nat), p ∈ s.processedLeaves →
      HostCall.applyState p ∉ (processLoop ws now s ls).2 := by
  intro ls
  induction ls with
  | nil =>
    intro s p _
    simp [processLoop]
  | cons l ls ih =>
    intro s p hp
    by_cases hmem : l.id ∈ s.processedLeaves
    · simp only [processLoop, if_pos hmem]
      exact ih s p hp
    · simp only [processLoop, if_neg hmem]
      rcases hpn : processNewSearchLeaf s ws now l with ⟨s1, a1⟩
      rcases hlp : processLoop ws now s1 ls with ⟨s2, a2⟩
      simp only []
      intro hx
      rcases List.mem_append.mp hx with hx1 | hx2
      · have hx1' : HostCall.applyState p ∈ (processNewSearchLeaf s ws now l).2 := by
          rw [hpn]; exact hx1
        have := applyState_mem_processNewSearchLeaf hx1'
        rw [this] at hp
        exact hmem hp
      · have hp1 : p ∈ s1.processedLeaves := by
          have := processNewSearchLeaf_processed ws now l hp
          rwa [hpn] at this
        have := ih s1 p hp1
        rw [hlp] at this
        exact this hx2

/-- Claim C1 (amended): the Tracker's own lifecycle pass never
re-processes a processed leaf — `handleLayoutChanges` never runs the
apply step on a leaf already in the processed set (the forced
redirection pass and the activation path, by contrast, do target
processed leaves, and command interception clears processed marks). -/
theorem processed_leaf_never_reapplied (s : PluginState) (ws : Workspace) (now : Nat) (p : Nat)
    (hp : p ∈ s.processedLeaves) :
    HostCall.applyState p ∉ (handleLayoutChanges s ws now).2 := by
  unfold handleLayoutChanges
  cases hb : s.settings.openBookmarksInMainArea with
  | false => simp
  | true =>
    rw [if_neg (by simp [hb])]
    exact processLoop_no_applyState ws now _ s p hp

/-- Witness for C1 (amended): a layout pass over a workspace whose only
search leaf is already processed issues no apply call for it. -/
theorem processed_leaf_never_reapplied_witness :
    1 ∈ processedLeafState.processedLeaves ∧
    HostCall.applyState 1 ∉ (handleLayoutChanges processedLeafState sidebarSearchWs 20000).2 :=
  ⟨by decide, processed_leaf_never_reapplied processedLeafState sidebarSearchWs 20000 1 (by decide)⟩

/-- Claim C2 (amended): within the grace period the lifecycle path
never redirects or creates a replacement tab, the activation path does
nothing, and the intercepted `setViewState` falls through to the
original setter — but the command-interception pass
(`handleSearchCommandExecution`) performs no grace check. -/
theorem grace_period_blocks_tracker_paths (s : PluginState) (ws : Workspace) (now : Nat)
    (leaf : WLeaf) (h : isInGracePeriod s now = true) :
    (∀ x, HostCall.redirectEngine x ∉ (processNewSearchLeaf s ws now leaf).2) ∧
    (∀ q st, HostCall.createTab q st ∉ (processNewSearchLeaf s ws now leaf).2) ∧
    handleExistingSearchLeafActivation s ws now leaf = (s, []) ∧
    setViewStateWrapped s ws now leaf "search" leaf.vstate =
      (s, [HostCall.origSetViewState leaf.id]) := by
  have hacts : ∀ a ∈ (processNewSearchLeaf s ws now leaf).2,
      a = HostCall.applyState leaf.id ∨ ∃ iid, a = HostCall.startMonitor leaf.id iid := by
    intro a ha
    unfold processNewSearchLeaf at ha
    simp only [] at ha
    split at ha
    · exact applyAndMonitor_actions ha
    · next hg => exact absurd h hg
  refine ⟨?_, ?_, ?_, ?_⟩
  · intro x hx
    rcases hacts _ hx with h1 | ⟨iid, h1⟩ <;> simp at h1
  · intro q st hx
    rcases hacts _ hx with h1 | ⟨iid, h1⟩ <;> simp at h1
  · simp [handleExistingSearchLeafActivation, h]
  · simp [setViewStateWrapped, h]

/-- Witness for C2 (amended) inside the concrete grace window. -/
theorem grace_period_blocks_tracker_paths_witness :
    isInGracePeriod graceWindowState 10500 = true ∧
    HostCall.redirectEngine 1 ∉
      (processNewSearchLeaf graceWindowState sidebarSearchWs 10500 leafOne).2 ∧
    handleExistingSearchLeafActivation graceWindowState sidebarSearchWs 10500 leafOne =
      (graceWindowState, []) :=
  ⟨by decide,
   (grace_period_blocks_tracker_paths graceWindowState sidebarSearchWs 10500 leafOne (by decide)).1 1,
   (grace_period_blocks_tracker_paths graceWindowState sidebarSearchWs 10500 leafOne (by decide)).2.2.1⟩

/-- Claim C3 (amended): on the paths routed through
`triggerRedirection` (lifecycle and activation), a second trigger less
than 500ms after a successful one is dropped before the redirection
pass runs — the command-interception path, however, bypasses this
check entirely. -/
theorem trigger_redirection_drops_second_within_500ms (s : PluginState) (ws : Workspace)
    (now1 now2 : Nat) (h1 : (triggerRedirection s now1).2 = true) (h2 : now2 - now1 < 500) :
    triggerRedirection (triggerRedirection s now1).1 now2 = ((triggerRedirection s now1).1, false) ∧
    triggerRedirectionRun (triggerRedirection s now1).1 ws now2 =
      ((triggerRedirection s now1).1, []) := by
  have hnp : shouldPreventDuplicateRedirection s now1 = false := by
    by_cases hd : shouldPreventDuplicateRedirection s now1
    · rw [triggerRedirection, if_pos hd] at h1
      cases h1
    · simpa using hd
  have hs1 : (triggerRedirection s now1).1 = { s with lastRedirectionTriggerTime := now1 } := by
    rw [triggerRedirection, if_neg (by simp [hnp])]
  rw [hs1]
  have hprev : shouldPreventDuplicateRedirection
      { s with lastRedirectionTriggerTime := now1 } now2 = true := by
    simp [shouldPreventDuplicateRedirection, h2]
  constructor
  · rw [triggerRedirection, if_pos hprev]
  · rw [triggerRedirectionRun, triggerRedirection, if_pos hprev]
    rfl

/-- Witness for C3 (amended): a successful trigger at 10000 makes a
second trigger at 10100 a no-op. -/
theorem trigger_redirection_drops_second_within_500ms_witness :
    (triggerRedirection processedLeafState 10000).2 = true ∧
    (10100 : Nat) - 10000 < 500 ∧
    triggerRedirectionRun (triggerRedirection processedLeafState 10000).1 sidebarSearchWs 10100 =
      ((triggerRedirection processedLeafState 10000).1, []) :=
  ⟨by decide, by decide,
   (trigger_redirection_drops_second_within_500ms processedLeafState sidebarSearchWs
     10000 10100 (by decide) (by decide)).2⟩

theorem alookup_adel_self {α : Type} (k : Nat) (m : List (Nat × α)) :
    alookup k (adel k m) = none := by
  unfold alookup adel
  rw [List.find?_eq_none.mpr]
  · rfl
  · intro x hx
    have hmem := List.of_mem_filter hx
    simp at hmem ⊢
    exact hmem

theorem cleanupLeafTracking_spec (s : PluginState) (leafId : Nat) :
    (cleanupLeafTracking s leafId).1.settings = s.settings ∧
    alookup leafId (cleanupLeafTracking s leafId).1.leafBaselineState = none ∧
    HostCall.persist ∉ (cleanupLeafTracking s leafId).2 := by
  unfold cleanupLeafTracking
  cases hw : alookup leafId s.leafWatchIntervals with
  | none => exact ⟨rfl, alookup_adel_self _ _, by simp⟩
  | some iid => exact ⟨rfl, alookup_adel_self _ _, by simp⟩

theorem monitorTick_no_baseline {s : PluginState} {ws : Workspace} {now leafId : Nat}
    (h : alookup leafId s.leafBaselineState = none) :
    (monitorTick s ws now leafId).1.settings.lastSearchState = s.settings.lastSearchState ∧
    alookup leafId (monitorTick s ws now leafId).1.leafBaselineState = none ∧
    HostCall.persist ∉ (monitorTick s ws now leafId).2 := by
  obtain ⟨hc1, hc2, hc3⟩ := cleanupLeafTracking_spec s leafId
  unfold monitorTick
  split
  · exact ⟨by rw [hc1], hc2, hc3⟩
  · split
    · exact ⟨by rw [hc1], hc2, hc3⟩
    · rw [h]
      split
      · exact ⟨rfl, h, by simp⟩
      · split
        · exact ⟨rfl, h, by simp⟩
        · exact ⟨rfl, h, by simp⟩

theorem startIntelligentMonitoring_baseline (s : PluginState) (leaf : WLeaf) :
    (startIntelligentMonitoring s leaf).1.leafBaselineState = s.leafBaselineState := by
  by_cases hw : (alookup leaf.id s.leafWatchIntervals).isSome
  · simp [startIntelligentMonitoring, hw]
  · simp [startIntelligentMonitoring, hw]

theorem applyAndMonitor_baseline {s : PluginState} (leaf : WLeaf)
    (ht : s.settings.lastSearchState.truthy = false) :
    (applyAndMonitor s leaf).1.leafBaselineState = s.leafBaselineState := by
  unfold applyAndMonitor
  rw [if_neg (by simp [ht])]
  simp only []
  exact startIntelligentMonitoring_baseline s leaf

theorem redirect_baseline (s : PluginState) (leaf : WLeaf) :
    (redirectSidebarSearchToMainArea s leaf).1.leafBaselineState = s.leafBaselineState := by
  cases hpin : s.settings.autoPinSearchTab with
  | true => simp [redirectSidebarSearchToMainArea, createSearchTabInMainArea, hpin]
  | false => simp [redirectSidebarSearchToMainArea, createSearchTabInMainArea, hpin]

theorem hsce_baseline (s : PluginState) (ws : Workspace) :
    (handleSearchCommandExecution s ws).1.leafBaselineState = s.leafBaselineState := by
  unfold handleSearchCommandExecution
  cases hl : (getLeavesOfType ws "search").filter (fun l => ¬ isInMainArea ws l) with
  | nil => simp
  | cons t rest => simpa using redirect_baseline s t

theorem trr_baseline (s : PluginState) (ws : Workspace) (now : Nat) :
    (triggerRedirectionRun s ws now).1.leafBaselineState = s.leafBaselineState := by
  by_cases hd : shouldPreventDuplicateRedirection s now
  · simp [triggerRedirectionRun, triggerRedirection, hd]
  · simp only [triggerRedirectionRun, triggerRedirection, hd]
    simpa using hsce_baseline { s with lastRedirectionTriggerTime := now } ws

/-- Claim C10 (amended): a monitor tick for a leaf with no recorded
baseline never persists anything, never creates a baseline for that
leaf, and leaves `lastSearchState` untouched; and while
`lastSearchState` is falsy, processing a leaf records no baseline.  (A
baseline can still appear later when command interception clears the
processed mark and the leaf is reprocessed — during the grace period or
after moving to the main area — once `lastSearchState` has meanwhile
become non-null.) -/
theorem no_baseline_no_persist (s : PluginState) (ws : Workspace) (now : Nat) (leafId : Nat)
    (h : alookup leafId s.leafBaselineState = none) :
    ((step s (Event.monitorFire leafId ws now)).1.settings.lastSearchState =
        s.settings.lastSearchState ∧
      alookup leafId (step s (Event.monitorFire leafId ws now)).1.leafBaselineState = none ∧
      HostCall.persist ∉ (step s (Event.monitorFire leafId ws now)).2) ∧
    (∀ leaf : WLeaf, s.settings.lastSearchState.truthy = false →
      (processNewSearchLeaf s ws now leaf).1.leafBaselineState = s.leafBaselineState) := by
  constructor
  · by_cases hw : (alookup leafId s.leafWatchIntervals).isSome
    · have hred : step s (Event.monitorFire leafId ws now) = monitorTick s ws now leafId := by
        simp only [step, if_pos hw]
      rw [hred]
      exact monitorTick_no_baseline h
    · have hred : step s (Event.monitorFire leafId ws now) = (s, []) := by
        simp only [step, if_neg hw]
      rw [hred]
      exact ⟨rfl, h, by simp⟩
  · intro leaf ht
    unfold processNewSearchLeaf
    simp only []
    split
    · exact applyAndMonitor_baseline leaf ht
    · split
      · exact trr_baseline _ ws now
      · exact applyAndMonitor_baseline leaf ht

/-- The sidebar search leaf present at startup (id 1), its sibling
created later by a search command (id 2), and id 1 after a user edit. -/
def c10LeafA : WLeaf :=
  { id := 1, viewType := "search", vstate := .vobj [("sort", "alpha")], chain := [100] }

def c10LeafM : WLeaf :=
  { id := 2, viewType := "search", vstate := .vobj [], chain := [101] }

def c10LeafEdited : WLeaf :=
  { id := 1, viewType := "search", vstate := .vobj [("sort", "zeta")], chain := [100] }

def c10Ws0 : Workspace := { leaves := [c10LeafA], rootSplit := 50 }

def c10Ws1 : Workspace := { leaves := [c10LeafM, c10LeafA], rootSplit := 50 }

def c10Ws3 : Workspace := { leaves := [c10LeafEdited], rootSplit := 50 }

/-- State right after `onload` with empty storage: leaf 1 was processed
while `lastSearchState` was still null, so no baseline was recorded. -/
def c10Start : PluginState := (onload none c10Ws0 10000).1

/-- The same instance after: the user saves the current search state
(10100), a search command goes through the interception wrapper (10200,
clearing leaf 1's processed mark; the forced pass redirects leaf 2),
and a layout change (10300, still in the grace window) reprocesses
leaf 1 — now with a non-null `lastSearchState`. -/
def c10Mid : PluginState :=
  (run c10Start [Event.saveStateCommand c10Ws0 10100,
    Event.commandExec "global-search:open" c10Ws1 10200,
    Event.layoutChange c10Ws0 10300]).1

/-- Counterexample to claim C10 as stated: leaf 1 is first processed
while `lastSearchState` is null and gets no baseline, yet after command
interception clears its processed mark and a grace-window layout change
reprocesses it, a baseline IS recorded for it, and a later monitor tick
persists the user's edit. -/
theorem null_first_processing_baseline_recorded_later :
    (c10Start.settings.lastSearchState = .vnull ∧
      1 ∈ c10Start.processedLeaves ∧
      alookup 1 c10Start.leafBaselineState = none) ∧
    alookup 1 c10Mid.leafBaselineState = some (.vobj [("sort", "alpha")]) ∧
    c10Mid.settings.lastSearchState = .vobj [("sort", "alpha")] ∧
    (step c10Mid (Event.monitorFire 1 c10Ws3 12400)).1.settings.lastSearchState =
      .vobj [("sort", "zeta")] ∧
    (step c10Mid (Event.monitorFire 1 c10Ws3 12400)).2 = [HostCall.persist] := by
  decide

/-- Witness for C10 (amended): a monitor tick for a leaf with no
baseline on a concrete instance persists nothing. -/
theorem no_baseline_no_persist_witness :
    alookup 1 graceWindowState.leafBaselineState = none ∧
    HostCall.persist ∉ (step graceWindowState (Event.monitorFire 1 sidebarSearchWs 12400)).2 :=
  ⟨by decide,
   (no_baseline_no_persist graceWindowState sidebarSearchWs 12400 1 (by decide)).1.2.2⟩
